import Mathlib

/-!
Verification of the classic_bpf crate: a shallow embedding of
`src/bpf_base.rs`, `src/linux.rs` and `src/bsd.rs` in Lean 4, together
with theorems settling the specification's claims about it.

Machine integers are modelled as `Nat`; the only place overflow matters
is the `as u16` cast in `BPFFProg::new`, modelled as `% 2 ^ 16`.
-/

/-- `BPFFilter` (src/bpf_base.rs): element of a classic BPF program, the
`sock_filter` / `bf_insn` record with fields `code : u16`, `jt : u8`,
`jf : u8`, `k : u32`. -/
structure BPFFilter where
  code : Nat
  jt : Nat
  jf : Nat
  k : Nat
deriving DecidableEq, Repr

/-- The `BPFCode` trait (src/bpf_base.rs): anything exposing a `u16` opcode
value. -/
class BPFCode (α : Type) where
  value : α → Nat

namespace bpf

/-- Opcode wrapper `BPFLd` for the load / load-index instruction classes. -/
structure BPFLd where
  val : Nat
deriving DecidableEq

/-- Opcode wrapper `BPFSt` for the store / store-index instruction classes. -/
structure BPFSt where
  val : Nat
deriving DecidableEq

/-- Opcode wrapper `BPFAlu` for the arithmetic/logic instruction class. -/
structure BPFAlu where
  val : Nat
deriving DecidableEq

/-- Opcode wrapper `BPFJmp` for the jump instruction class. -/
structure BPFJmp where
  val : Nat
deriving DecidableEq

/-- Opcode wrapper `BPFRet` for the return instruction class. -/
structure BPFRet where
  val : Nat
deriving DecidableEq

/-- Opcode wrapper `BPFMisc` for the miscellaneous instruction class. -/
structure BPFMisc where
  val : Nat
deriving DecidableEq

/-- Modifier fragment `BPFSize`: operand width (word / half-word / byte). -/
structure BPFSize where
  val : Nat
deriving DecidableEq

/-- Modifier fragment `BPFMode`: addressing mode. -/
structure BPFMode where
  val : Nat
deriving DecidableEq

/-- Modifier fragment `BPFOp`: arithmetic operator. -/
structure BPFOp where
  val : Nat
deriving DecidableEq

/-- Modifier fragment `BPFJmpOp`: jump comparison operator. -/
structure BPFJmpOp where
  val : Nat
deriving DecidableEq

/-- Modifier fragment `BPFSrc`: operand source (literal vs index register). -/
structure BPFSrc where
  val : Nat
deriving DecidableEq

/-- Modifier fragment `BPFRetSrc`: return operand source (accumulator). -/
structure BPFRetSrc where
  val : Nat
deriving DecidableEq

/-- Modifier fragment `BPFMiscOp`: register transfer direction. -/
structure BPFMiscOp where
  val : Nat
deriving DecidableEq

instance : BPFCode BPFLd := ⟨BPFLd.val⟩

instance : BPFCode BPFSt := ⟨BPFSt.val⟩

instance : BPFCode BPFAlu := ⟨BPFAlu.val⟩

instance : BPFCode BPFJmp := ⟨BPFJmp.val⟩

instance : BPFCode BPFRet := ⟨BPFRet.val⟩

instance : BPFCode BPFMisc := ⟨BPFMisc.val⟩

/-- `add_op!(BPFLd, BPFSize)`: `BitOr<BPFSize> for BPFLd` composes by
bitwise OR of the underlying `u16` values. -/
def BPFLd.orSize (a : BPFLd) (b : BPFSize) : BPFLd := ⟨a.val ||| b.val⟩

/-- `add_op!(BPFLd, BPFMode)`. -/
def BPFLd.orMode (a : BPFLd) (b : BPFMode) : BPFLd := ⟨a.val ||| b.val⟩

/-- `add_op!(BPFAlu, BPFOp)`. -/
def BPFAlu.orOp (a : BPFAlu) (b : BPFOp) : BPFAlu := ⟨a.val ||| b.val⟩

/-- `add_op!(BPFAlu, BPFSrc)`. -/
def BPFAlu.orSrc (a : BPFAlu) (b : BPFSrc) : BPFAlu := ⟨a.val ||| b.val⟩

/-- `add_op!(BPFJmp, BPFJmpOp)`. -/
def BPFJmp.orJmpOp (a : BPFJmp) (b : BPFJmpOp) : BPFJmp := ⟨a.val ||| b.val⟩

/-- `add_op!(BPFJmp, BPFSrc)`. -/
def BPFJmp.orSrc (a : BPFJmp) (b : BPFSrc) : BPFJmp := ⟨a.val ||| b.val⟩

/-- `add_op!(BPFRet, BPFSrc)`. -/
def BPFRet.orSrc (a : BPFRet) (b : BPFSrc) : BPFRet := ⟨a.val ||| b.val⟩

/-- `add_op!(BPFRet, BPFRetSrc)`. -/
def BPFRet.orRetSrc (a : BPFRet) (b : BPFRetSrc) : BPFRet := ⟨a.val ||| b.val⟩

/-- `add_op!(BPFMisc, BPFMiscOp)`. -/
def BPFMisc.orMiscOp (a : BPFMisc) (b : BPFMiscOp) : BPFMisc := ⟨a.val ||| b.val⟩

def LD : BPFLd := ⟨0x00⟩

def LDX : BPFLd := ⟨0x01⟩

def ST : BPFSt := ⟨0x02⟩

def STX : BPFSt := ⟨0x03⟩

def ALU : BPFAlu := ⟨0x04⟩

def JMP : BPFJmp := ⟨0x05⟩

def RET : BPFRet := ⟨0x06⟩

def MISC : BPFMisc := ⟨0x07⟩

def W : BPFSize := ⟨0x0⟩

def H : BPFSize := ⟨0x8⟩

def B : BPFSize := ⟨0x10⟩

def IMM : BPFMode := ⟨0x00⟩

def ABS : BPFMode := ⟨0x20⟩

def IND : BPFMode := ⟨0x40⟩

def MEM : BPFMode := ⟨0x60⟩

def LEN : BPFMode := ⟨0x80⟩

def MSH : BPFMode := ⟨0xA0⟩

def ADD : BPFOp := ⟨0x00⟩

def SUB : BPFOp := ⟨0x10⟩

def MUL : BPFOp := ⟨0x20⟩

def DIV : BPFOp := ⟨0x30⟩

def OR : BPFOp := ⟨0x40⟩

def AND : BPFOp := ⟨0x50⟩

def LSH : BPFOp := ⟨0x60⟩

def RSH : BPFOp := ⟨0x70⟩

def NEG : BPFOp := ⟨0x80⟩

def JA : BPFJmpOp := ⟨0x00⟩

def JEQ : BPFJmpOp := ⟨0x10⟩

def JGT : BPFJmpOp := ⟨0x20⟩

def JGE : BPFJmpOp := ⟨0x30⟩

def JSET : BPFJmpOp := ⟨0x40⟩

def K : BPFSrc := ⟨0x00⟩

def X : BPFSrc := ⟨0x08⟩

def A : BPFRetSrc := ⟨0x08⟩

def TAX : BPFMiscOp := ⟨0x00⟩

def TXA : BPFMiscOp := ⟨0x80⟩

end bpf

/-- `BPFFilter::bpf_stmt` (src/bpf_base.rs): the BPF_STMT macro,
`{ (u_int16_t)(code), 0, 0, k }`; generic over any `T : BPFCode`. -/
def BPFFilter.bpf_stmt {T : Type} [BPFCode T] (code : T) (k : Nat) : BPFFilter :=
  { code := BPFCode.value code, jt := 0, jf := 0, k := k }

/-- `BPFFilter::bpf_jump` (src/bpf_base.rs): the BPF_JUMP macro,
`{ (u_int16_t)(code), jt, jf, k }`; the opcode argument has type
`bpf::BPFJmp`. -/
def BPFFilter.bpf_jump (code : bpf.BPFJmp) (k : Nat) (jt : Nat) (jf : Nat) : BPFFilter :=
  { code := code.val, jt := jt, jf := jf, k := k }

/-- `BPFFProg` (src/bpf_base.rs): the classic BPF program descriptor,
`{ len : u16, filters : &BPFFilter }`. The borrowed pointer-to-first-element
is modelled by keeping the whole underlying instruction sequence; `len` is
the `u16` field. -/
structure BPFFProg where
  len : Nat
  filters : List BPFFilter
deriving DecidableEq

/-- `BPFFProg::new` (src/bpf_base.rs): stores `filters.len() as u16`
(a truncating cast, modelled as `% 2 ^ 16`) and the reference to the first
instruction. It returns `Self` — construction has no error path. -/
def BPFFProg.new (filters : List BPFFilter) : BPFFProg :=
  { len := filters.length % 2 ^ 16, filters := filters }

/-- The instruction view the descriptor presents to the kernel: `len`
instructions read back starting at the borrowed pointer. -/
def BPFFProg.view (p : BPFFProg) : List BPFFilter :=
  p.filters.take p.len

/-- `libc::SOL_SOCKET` on Linux. -/
def SOL_SOCKET : Int := 1

/-- `libc::SO_ATTACH_FILTER` on Linux. -/
def SO_ATTACH_FILTER : Int := 26

/-- `libc::SO_DETACH_FILTER` on Linux. -/
def SO_DETACH_FILTER : Int := 27

/-- The argument record of a `libc::setsockopt` call as issued by this
crate: the option level, the option name, the payload (`optval`: either a
pointer to a `BPFFProg` descriptor or the null pointer) and the payload
byte length (`optlen`). -/
structure SetsockoptArgs where
  level : Int
  optname : Int
  optval : Option BPFFProg
  optlen : Nat
deriving DecidableEq

/-- `size_of::<BPFFProg>()`: 16 bytes on 64-bit targets (2-byte `len`
field, 6 bytes of natural alignment padding, 8-byte pointer). -/
def size_of_BPFFProg : Nat := 16

namespace linux

/-- The `setsockopt` argument record built by `attach_filter`
(src/linux.rs): level `SOL_SOCKET`, option `SO_ATTACH_FILTER`, payload the
program descriptor, length `size_of::<BPFFProg>()`. -/
def attachArgs (prog : BPFFProg) : SetsockoptArgs :=
  { level := SOL_SOCKET, optname := SO_ATTACH_FILTER,
    optval := some prog, optlen := size_of_BPFFProg }

/-- `BPFOperations::attach_filter` for Linux (src/linux.rs): issues the
`setsockopt` call described by `attachArgs` and matches on its return
code — `0 => Ok(())`, `errno => Err(errno)`. The kernel side is modelled
by the oracle `sys`, mapping the issued call to its return code. -/
def attach_filter (sys : SetsockoptArgs → Int) (prog : BPFFProg) : Except Int Unit :=
  let r := sys (attachArgs prog)
  if r = 0 then Except.ok () else Except.error r

/-- The `setsockopt` argument record built by `detach_filter`
(src/linux.rs): level `SOL_SOCKET`, option `SO_DETACH_FILTER`, null
payload, zero length. -/
def detachArgs : SetsockoptArgs :=
  { level := SOL_SOCKET, optname := SO_DETACH_FILTER,
    optval := none, optlen := 0 }

/-- `detach_filter` (src/linux.rs): issues the `setsockopt` call described
by `detachArgs` and matches on its return code — `0 => Ok(())`,
`errno => Err(errno)`. It takes only the socket; no filter state is
consulted. -/
def detach_filter (sys : SetsockoptArgs → Int) : Except Int Unit :=
  let r := sys detachArgs
  if r = 0 then Except.ok () else Except.error r

end linux

namespace bsd

/-- `BPFOperations::attach_filter` for BSD (src/bsd.rs): issues
`ioctl(fd, BIOCSETF, &prog)` and matches on its return code —
`0 => Ok(())`, `errno => Err(errno)`. The ioctl call is modelled by the
oracle `sys`, mapping the program descriptor passed by pointer to the
call's return code. -/
def attach_filter (sys : BPFFProg → Int) (prog : BPFFProg) : Except Int Unit :=
  let r := sys prog
  if r = 0 then Except.ok () else Except.error r

end bsd

/-- The drop-everything filter of the crate's doc example:
`BPFFilter::bpf_stmt(bpf::RET | bpf::K, 0)`. -/
def filter1 : BPFFilter := BPFFilter.bpf_stmt (bpf.RET.orSrc bpf.K) 0

/-- C1 (counterexample): constructing a Program from a sequence of length
65536 does not fail — `BPFFProg::new` has no error path — and the
recorded length field is silently truncated to 0. -/
theorem C1_counterexample :
    BPFFProg.new (List.replicate 65536 filter1)
      = { len := 0, filters := List.replicate 65536 filter1 } := by
  have h : (List.replicate 65536 filter1).length % 2 ^ 16 = 0 := by
    rw [List.length_replicate]
    norm_num
  simp only [BPFFProg.new, h]

/-- C1 (amended): for every sequence longer than 65535 instructions,
`BPFFProg::new` succeeds, recording the length modulo 2 ^ 16 (u16 cast
truncation), which differs from the true length. -/
theorem C1_amended (l : List BPFFilter) (h : 65535 < l.length) :
    BPFFProg.new l = { len := l.length % 2 ^ 16, filters := l } ∧
    (BPFFProg.new l).len ≠ l.length := by
  refine ⟨rfl, ?_⟩
  show l.length % 2 ^ 16 ≠ l.length
  have h16 : (2 : Nat) ^ 16 = 65536 := by norm_num
  rw [h16]
  omega

/-- C1 (witness for the amended claim): a sequence of 65537 instructions
is accepted with recorded length 1 ≠ 65537. -/
theorem C1_amended_witness :
    BPFFProg.new (List.replicate 65537 filter1)
        = { len := (List.replicate 65537 filter1).length % 2 ^ 16,
            filters := List.replicate 65537 filter1 } ∧
    (BPFFProg.new (List.replicate 65537 filter1)).len
        ≠ (List.replicate 65537 filter1).length :=
  C1_amended (List.replicate 65537 filter1)
    (by rw [List.length_replicate]; norm_num)

/-- C2 (counterexample): constructing a Program from the empty sequence
does not fail — `BPFFProg::new` returns a Program with length field 0. -/
theorem C2_counterexample :
    BPFFProg.new ([] : List BPFFilter) = { len := 0, filters := [] } := rfl

/-- C2 (amended): `BPFFProg::new` on the empty sequence succeeds without
any validation, yielding a Program with recorded length 0 and an empty
instruction view. -/
theorem C2_amended :
    (BPFFProg.new ([] : List BPFFilter)).len = 0 ∧
    (BPFFProg.new ([] : List BPFFilter)).view = [] :=
  ⟨rfl, rfl⟩

/-- C3: for every non-empty instruction sequence of length at most 65535,
`BPFFProg::new` records exactly the sequence's length and the instruction
view read back through the descriptor is the source sequence itself. -/
theorem C3_roundtrip (l : List BPFFilter) (hne : l ≠ []) (hlen : l.length ≤ 65535) :
    (BPFFProg.new l).len = l.length ∧ (BPFFProg.new l).view = l := by
  have hmod : l.length % 2 ^ 16 = l.length := Nat.mod_eq_of_lt (by omega)
  refine ⟨hmod, ?_⟩
  show List.take (l.length % 2 ^ 16) l = l
  rw [hmod]
  exact List.take_length l

/-- C3 (witness): round trip on the one-instruction sequence holding the
doc example's drop-everything filter. -/
theorem C3_roundtrip_witness :
    (BPFFProg.new [filter1]).len = [filter1].length ∧
    (BPFFProg.new [filter1]).view = [filter1] :=
  C3_roundtrip [filter1] (by decide) (by decide)

/-- C4: in both the setsockopt-based (Linux) and the ioctl-based (BSD)
variant, attach returns Ok exactly when the underlying system call
returns 0, and for every non-zero return the raw value is passed through
unchanged as the error. -/
theorem C4_attach_errcode :
    (∀ (sys : SetsockoptArgs → Int) (prog : BPFFProg),
        (linux.attach_filter sys prog = Except.ok () ↔
          sys (linux.attachArgs prog) = 0) ∧
        (sys (linux.attachArgs prog) ≠ 0 →
          linux.attach_filter sys prog
            = Except.error (sys (linux.attachArgs prog)))) ∧
    (∀ (sys : BPFFProg → Int) (prog : BPFFProg),
        (bsd.attach_filter sys prog = Except.ok () ↔ sys prog = 0) ∧
        (sys prog ≠ 0 → bsd.attach_filter sys prog = Except.error (sys prog))) := by
  constructor <;> intro sys prog <;>
    constructor <;>
      first
        | (unfold linux.attach_filter
           by_cases h : sys (linux.attachArgs prog) = 0 <;> simp [h])
        | (unfold bsd.attach_filter
           by_cases h : sys prog = 0 <;> simp [h])

/-- C4 (witness): a failing Linux call with return code 13 yields
error 13; a zero-returning BSD call yields Ok. -/
theorem C4_attach_errcode_witness :
    linux.attach_filter (fun _ => (13 : Int)) (BPFFProg.new [filter1])
        = Except.error 13 ∧
    bsd.attach_filter (fun _ => (0 : Int)) (BPFFProg.new [filter1])
        = Except.ok () :=
  ⟨(C4_attach_errcode.1 (fun _ => 13) (BPFFProg.new [filter1])).2 (by decide),
   ((C4_attach_errcode.2 (fun _ => 0) (BPFFProg.new [filter1])).1).mpr rfl⟩

/-- C5: every typed opcode composition operator the crate defines is
bitwise OR of the fragments' numeric values; composing LD with byte width
and absolute mode yields 0x30, and bpf_stmt of that opcode with
immediate 6 yields the instruction (0x30, 0, 0, 6). -/
theorem C5_opcode_or :
    (∀ (a : bpf.BPFLd) (b : bpf.BPFSize), (a.orSize b).val = a.val ||| b.val) ∧
    (∀ (a : bpf.BPFLd) (b : bpf.BPFMode), (a.orMode b).val = a.val ||| b.val) ∧
    (∀ (a : bpf.BPFAlu) (b : bpf.BPFOp), (a.orOp b).val = a.val ||| b.val) ∧
    (∀ (a : bpf.BPFAlu) (b : bpf.BPFSrc), (a.orSrc b).val = a.val ||| b.val) ∧
    (∀ (a : bpf.BPFJmp) (b : bpf.BPFJmpOp), (a.orJmpOp b).val = a.val ||| b.val) ∧
    (∀ (a : bpf.BPFJmp) (b : bpf.BPFSrc), (a.orSrc b).val = a.val ||| b.val) ∧
    (∀ (a : bpf.BPFRet) (b : bpf.BPFSrc), (a.orSrc b).val = a.val ||| b.val) ∧
    (∀ (a : bpf.BPFRet) (b : bpf.BPFRetSrc), (a.orRetSrc b).val = a.val ||| b.val) ∧
    (∀ (a : bpf.BPFMisc) (b : bpf.BPFMiscOp), (a.orMiscOp b).val = a.val ||| b.val) ∧
    ((bpf.LD.orSize bpf.B).orMode bpf.ABS).val = 0x30 ∧
    BPFFilter.bpf_stmt ((bpf.LD.orSize bpf.B).orMode bpf.ABS) 6
      = { code := 0x30, jt := 0, jf := 0, k := 6 } :=
  ⟨fun _ _ => rfl, fun _ _ => rfl, fun _ _ => rfl, fun _ _ => rfl, fun _ _ => rfl,
   fun _ _ => rfl, fun _ _ => rfl, fun _ _ => rfl, fun _ _ => rfl,
   by decide, by decide⟩

/-- C6: bpf_jump with opcode JMP | JEQ | K, immediate 0x3A
(IPPROTO_ICMPV6), jump offsets 0 and 3, yields exactly the instruction
(0x15, 0, 3, 0x3A). -/
theorem C6_jump_icmpv6 :
    BPFFilter.bpf_jump ((bpf.JMP.orJmpOp bpf.JEQ).orSrc bpf.K) 0x3A 0 3
      = { code := 0x15, jt := 0, jf := 3, k := 0x3A } := by
  decide

/-- C7: for every opcode value of the taxonomy (any type implementing
BPFCode) and every 32-bit immediate, bpf_stmt cannot fail and yields the
instruction with that opcode value, zero jump offsets, and that
immediate. -/
theorem C7_stmt_shape {T : Type} [BPFCode T] (code : T) (k : Nat)
    (hk : k < 2 ^ 32) :
    BPFFilter.bpf_stmt code k
      = { code := BPFCode.value code, jt := 0, jf := 0, k := k } :=
  rfl

/-- C7 (witness): bpf_stmt at the RET | K opcode with immediate 0. -/
theorem C7_stmt_shape_witness :
    BPFFilter.bpf_stmt (bpf.RET.orSrc bpf.K) 0
      = { code := BPFCode.value (bpf.RET.orSrc bpf.K), jt := 0, jf := 0, k := 0 } :=
  C7_stmt_shape (bpf.RET.orSrc bpf.K) 0 (by norm_num)

/-- C8: detach_filter issues the SO_DETACH_FILTER socket option with a
null payload and zero length, consults no filter state, and returns Ok
exactly when the call returns 0, otherwise the non-zero result as the
error. -/
theorem C8_detach (sys : SetsockoptArgs → Int) :
    linux.detachArgs.optval = none ∧
    linux.detachArgs.optlen = 0 ∧
    linux.detachArgs.optname = SO_DETACH_FILTER ∧
    (linux.detach_filter sys = Except.ok () ↔ sys linux.detachArgs = 0) ∧
    (sys linux.detachArgs ≠ 0 →
      linux.detach_filter sys = Except.error (sys linux.detachArgs)) := by
  refine ⟨rfl, rfl, rfl, ?_, ?_⟩ <;>
    unfold linux.detach_filter <;>
      by_cases h : sys linux.detachArgs = 0 <;> simp [h]

/-- C8 (witness): a zero-returning call detaches successfully; a call
returning 7 yields error 7. -/
theorem C8_detach_witness :
    linux.detach_filter (fun _ => (0 : Int)) = Except.ok () ∧
    linux.detach_filter (fun _ => (7 : Int)) = Except.error 7 :=
  ⟨((C8_detach (fun _ => 0)).2.2.2.1).mpr rfl,
   (C8_detach (fun _ => 7)).2.2.2.2 (by decide)⟩

/-- C10: for every instruction sequence, of any length, `BPFFProg::new`
succeeds and records the length modulo 2 ^ 16 (the u16 cast), keeping the
borrowed sequence itself; no error path exists. -/
theorem C10_new_truncates (l : List BPFFilter) :
    (BPFFProg.new l).len = l.length % 2 ^ 16 ∧ (BPFFProg.new l).filters = l :=
  ⟨rfl, rfl⟩
